import Mathlib

/-!
Verification development for the call-session relay of the repository
(Twilio media-stream leg bridged to an OpenAI realtime leg).

Two variants of the session manager live in the repository:
* `SM` embeds `src/sessionManager.ts` together with the `Session` /
  `TranscriptItem` / message types declared in `src/types` (the interface
  block shipped alongside `src/server.ts`).
* `CU` embeds `callUtils.ts` together with the websocket-server session
  manager (the unnamed source file whose exports are `handleCallConnection`,
  `handleFunctionCall`, `handleTwilioMessage`, `handleModelMessage`, ...)
  and the `disconnect_call` handler of `functionHandlers.ts`.

Sockets are modelled as handles carrying an identifier and a `readyState`;
sending and closing are recorded in an explicit action trace.  Ambient
inputs of the JavaScript code (wall-clock `new Date().toISOString()`, the
global `callParameters` map) are passed as explicit arguments.
-/

/-- A WebSocket handle: identity plus the `readyState` field of the `ws`
library.  `WebSocket.OPEN` is 1. -/
structure WS where
  id : Nat
  readyState : Nat
deriving DecidableEq, Repr

/-- The `ws` library constant `WebSocket.OPEN`. -/
def WS.OPEN : Nat := 1

/-- JavaScript truthiness of an optional string: `undefined` and the empty
string are falsy. -/
def truthy : Option String → Bool
  | none => false
  | some s => s != ""

namespace SM

/-- `TranscriptItem` of `src/types`: the `role` union type is a string at
runtime (and can in fact be `undefined` through the unchecked cast in the
`conversation.item.created` case), so it is modelled as `Option String`. -/
structure TranscriptItem where
  role : Option String
  content : String
  timestamp : String
  itemId : Option String
deriving DecidableEq, Repr

/-- The `Session` interface of `src/types` used by `src/sessionManager.ts`.
`aiConfig` is the opaque provider configuration (only stored and compared
for presence by the code under verification). -/
structure Session where
  twilioConn : Option WS
  modelConn : Option WS
  streamSid : Option String
  lastAssistantItem : Option String
  responseStartTimestamp : Option Int
  latestMediaTimestamp : Option Int
  aiConfig : Option String
  callSid : Option String
  phoneNumber : Option String
  customerName : Option String
  customerLocation : Option String
  customerProduct : Option String
  transcript : List TranscriptItem
  disconnectReason : Option String
deriving DecidableEq, Repr

/-- The module-level `const session: Session = { transcript: [] }`. -/
def emptySession : Session :=
  ⟨none, none, none, none, none, none, none, none, none, none, none, none, [], none⟩

/-- Payload of an outbound frame to the OpenAI leg. -/
inductive ModelOut where
  | inputAudioAppend (audio : Option String)
  | truncate (itemId : String) (contentIndex : Nat) (audioEndMs : Int)
deriving DecidableEq, Repr

/-- Payload of an outbound frame to the Twilio leg. -/
inductive TwilioOut where
  | media (streamSid : String) (payload : Option String)
  | mark (streamSid : String)
  | clear (streamSid : String)
deriving DecidableEq, Repr

/-- Observable side effects of `src/sessionManager.ts` handlers. -/
inductive Action where
  | sendModel (m : ModelOut)
  | sendTwilio (m : TwilioOut)
  | closeSocket (id : Nat)
  | saveTranscript
  | connectModelSocket
deriving DecidableEq, Repr

/-- `isOpen` of `src/sessionManager.ts`: returns `false` for an undefined
handle and `true` otherwise — it never inspects `readyState`. -/
def isOpen (ws : Option WS) : Bool :=
  ws.isSome

/-- `cleanupConnection` of `src/sessionManager.ts`: closes the socket
whenever the handle is defined. -/
def cleanupConnection (ws : Option WS) : List Action :=
  match ws with
  | some w => [Action.closeSocket w.id]
  | none => []

/-- `closeAllConnections` of `src/sessionManager.ts`: close both sockets and
clear the connection / timing fields.  `transcript`, `callSid` and the
customer fields are not touched. -/
def closeAllConnections (s : Session) : Session × List Action :=
  ({ s with twilioConn := none, modelConn := none, streamSid := none,
            lastAssistantItem := none, responseStartTimestamp := none,
            latestMediaTimestamp := none },
   cleanupConnection s.twilioConn ++ cleanupConnection s.modelConn)

/-- Replace (wholesale) the content of the first item whose `itemId` equals
`itemId` — the `findIndex` / assignment pattern of `addToTranscript` and
`updateTranscriptItem`. -/
def replaceFirstContent (ts : List TranscriptItem) (itemId : Option String)
    (content : String) : List TranscriptItem :=
  match ts with
  | [] => []
  | x :: rest =>
      if x.itemId == itemId then { x with content := content } :: rest
      else x :: replaceFirstContent rest itemId content

/-- Append `delta` to the content of the first item whose `itemId` equals
`itemId` — the `existingItem.content += delta` pattern of the
`response.audio_transcript.delta` and `response.content_part.added` cases. -/
def appendFirstContent (ts : List TranscriptItem) (itemId : Option String)
    (delta : String) : List TranscriptItem :=
  match ts with
  | [] => []
  | x :: rest =>
      if x.itemId == itemId then { x with content := x.content ++ delta } :: rest
      else x :: appendFirstContent rest itemId delta

/-- Does the transcript already hold an item with this `itemId`
(`findIndex(...) >= 0` / `find(...)` defined)? -/
def hasItem (ts : List TranscriptItem) (itemId : Option String) : Bool :=
  ts.any (fun t => t.itemId == itemId)

/-- `addToTranscript` of `src/sessionManager.ts`: for a truthy `itemId` that
already has an entry the content is overwritten in place; otherwise a new
item is pushed.  `now` stands for `new Date().toISOString()`. -/
def addToTranscript (now : String) (s : Session) (role : Option String)
    (content : String) (itemId : Option String) : Session :=
  if truthy itemId && hasItem s.transcript itemId then
    { s with transcript := replaceFirstContent s.transcript itemId content }
  else
    { s with transcript := s.transcript ++ [⟨role, content, now, itemId⟩] }

/-- `updateTranscriptItem` of `src/sessionManager.ts`. -/
def updateTranscriptItem (now : String) (s : Session) (itemId : String)
    (role : Option String) (content : String) : Session :=
  if hasItem s.transcript (some itemId) then
    { s with transcript := replaceFirstContent s.transcript (some itemId) content }
  else
    addToTranscript now s role content (some itemId)

/-- `handleTruncation` of `src/sessionManager.ts`. -/
def handleTruncation (s : Session) : Session × List Action :=
  if !truthy s.lastAssistantItem || s.responseStartTimestamp.isNone then (s, [])
  else
    let elapsedMs := s.latestMediaTimestamp.getD 0 - s.responseStartTimestamp.getD 0
    let audio_end_ms := if elapsedMs > 0 then elapsedMs else 0
    let a1 :=
      if isOpen s.modelConn then
        [Action.sendModel (ModelOut.truncate (s.lastAssistantItem.getD "") 0 audio_end_ms)]
      else []
    let a2 :=
      if s.twilioConn.isSome && truthy s.streamSid then
        [Action.sendTwilio (TwilioOut.clear (s.streamSid.getD ""))]
      else []
    ({ s with lastAssistantItem := none, responseStartTimestamp := none }, a1 ++ a2)

/-- The `TwilioMessage.start` payload of `src/types`. -/
structure StartPayload where
  streamSid : String
  callSid : String
deriving DecidableEq, Repr

/-- The `TwilioMessage.media` payload of `src/types`. -/
structure MediaPayload where
  payload : String
  timestamp : Int
deriving DecidableEq, Repr

/-- The `TwilioMessage` interface of `src/types`. -/
structure TwilioMsg where
  event : String
  start : Option StartPayload
  media : Option MediaPayload
deriving DecidableEq, Repr

/-- A `{type, text}` content part of the `OpenAIMessage` interface. -/
structure ContentPart where
  type : String
  text : String
deriving DecidableEq, Repr

/-- The `OpenAIMessage.item` payload of `src/types`. -/
structure ItemPayload where
  id : Option String
  type : String
  role : Option String
  name : Option String
  arguments : Option String
  content : Option (List ContentPart)
deriving DecidableEq, Repr

/-- The `OpenAIMessage` interface of `src/types`. -/
structure OpenAIMsg where
  type : String
  item_id : Option String
  delta : Option String
  transcript : Option String
  part : Option ContentPart
  output_index : Option Int
  item : Option ItemPayload
deriving DecidableEq, Repr

/-- The parameters stored in the global `callParameters` map of
`src/server.ts`, looked up by `callSid` in the `start` case. -/
structure CallParams where
  name : Option String
  location : Option String
  product : Option String
deriving DecidableEq, Repr

/-- `connectToOpenAI` of `src/sessionManager.ts`, reduced to its guards: the
actual socket creation, the 10s timeout and the `session.update`
configuration frame are external I/O represented by one action.  The second
guard uses `isOpen`, which only tests presence of the handle. -/
def connectToOpenAI (s : Session) : List Action :=
  if !s.twilioConn.isSome || !truthy s.streamSid || !s.aiConfig.isSome then []
  else if isOpen s.modelConn then []
  else [Action.connectModelSocket]

/-- The `if (session.callSid)` block of the `start` case: copy the truthy
fields of the `callParameters` entry for this `callSid` into the session. -/
def applyCallParams (params : String → Option CallParams) (s2 : Session) : Session :=
  if truthy s2.callSid then
    match params (s2.callSid.getD "") with
    | some p =>
        let sA := if truthy p.name then { s2 with customerName := p.name } else s2
        let sB := if truthy p.location then { sA with customerLocation := p.location } else sA
        if truthy p.product then { sB with customerProduct := p.product } else sB
    | none => s2
  else s2

/-- The `start` case of `handleTwilioMessage`: record the stream/call ids,
reset the timing fields, push the "Call started" system entry, copy the
`callParameters` entry for this `callSid` (if any) into the session and
connect the model leg. -/
def twilioStartCase (now : String) (params : String → Option CallParams)
    (s : Session) (msg : TwilioMsg) : Session × List Action :=
  let s1 := { s with streamSid := msg.start.map (fun p => p.streamSid),
                     callSid := msg.start.map (fun p => p.callSid),
                     latestMediaTimestamp := some 0,
                     lastAssistantItem := none,
                     responseStartTimestamp := none }
  let s2 := addToTranscript now s1 (some "system") "Call started" none
  let s3 := applyCallParams params s2
  (s3, connectToOpenAI s3)

/-- The `media` case of `handleTwilioMessage`: overwrite
`latestMediaTimestamp` with the frame's timestamp and, when `isOpen` holds
of the model handle, forward the payload unmodified as an
`input_audio_buffer.append`. -/
def twilioMediaCase (s : Session) (msg : TwilioMsg) : Session × List Action :=
  let s1 := { s with latestMediaTimestamp := msg.media.map (fun m => m.timestamp) }
  if isOpen s1.modelConn then
    (s1, [Action.sendModel (ModelOut.inputAudioAppend (msg.media.map (fun m => m.payload)))])
  else (s1, [])

/-- The `close` case of `handleTwilioMessage`: push the "Call ended" system
entry, kick off the asynchronous transcript save, close everything. -/
def twilioCloseCase (now : String) (s : Session) : Session × List Action :=
  let s1 := addToTranscript now s (some "system") "Call ended" none
  let (s2, acts) := closeAllConnections s1
  (s2, Action.saveTranscript :: acts)

/-- `handleTwilioMessage` of `src/sessionManager.ts`.  The switch has cases
for `start`, `media` and `close` only — any other event (in particular
`stop`) falls through and does nothing. -/
def handleTwilioMessage (now : String) (params : String → Option CallParams)
    (s : Session) (msg : TwilioMsg) : Session × List Action :=
  if msg.event == "start" then twilioStartCase now params s msg
  else if msg.event == "media" then twilioMediaCase s msg
  else if msg.event == "close" then twilioCloseCase now s
  else (s, [])

/-- The `input_audio_buffer.speech_started` case of `handleOpenAIMessage`:
run truncation, then open a "..." placeholder entry for the user turn. -/
def speechStartedCase (now : String) (s : Session) (msg : OpenAIMsg) :
    Session × List Action :=
  let (s1, acts) := handleTruncation s
  let s2 :=
    if truthy msg.item_id then addToTranscript now s1 (some "user") "..." msg.item_id
    else s1
  (s2, acts)

/-- The `response.audio.delta` case of `handleOpenAIMessage`. -/
def audioDeltaCase (s : Session) (msg : OpenAIMsg) : Session × List Action :=
  if s.twilioConn.isSome && truthy s.streamSid then
    let s1 :=
      if s.responseStartTimestamp.isNone then
        { s with responseStartTimestamp := some (s.latestMediaTimestamp.getD 0) }
      else s
    let s2 := if truthy msg.item_id then { s1 with lastAssistantItem := msg.item_id } else s1
    (s2, [Action.sendTwilio (TwilioOut.media (s.streamSid.getD "") msg.delta),
          Action.sendTwilio (TwilioOut.mark (s.streamSid.getD ""))])
  else (s, [])

/-- The `conversation.item.created` case of `handleOpenAIMessage`: a created
`message` item with non-empty joined content is added to (or overwritten in)
the transcript under its item id. -/
def itemCreatedCase (now : String) (s : Session) (msg : OpenAIMsg) : Session :=
  match msg.item with
  | some item =>
      if item.type == "message" then
        let content := String.join (((item.content.getD []).map (fun c => c.text)))
        if content != "" then addToTranscript now s item.role content item.id
        else s
      else s
  | none => s

/-- The `conversation.item.input_audio_transcription.completed` case of
`handleOpenAIMessage`: replace the user entry for `item_id` by the final
transcription text. -/
def transcriptionCompletedCase (now : String) (s : Session) (msg : OpenAIMsg) : Session :=
  if truthy msg.item_id && truthy msg.transcript then
    updateTranscriptItem now s (msg.item_id.getD "") (some "user") (msg.transcript.getD "")
  else s

/-- The `response.content_part.added` case of `handleOpenAIMessage`. -/
def contentPartAddedCase (now : String) (s : Session) (msg : OpenAIMsg) : Session :=
  let partIsText := match msg.part with | some p => p.type == "text" | none => false
  if partIsText && msg.output_index == some 0 && truthy msg.item_id then
    let text := match msg.part with | some p => p.text | none => ""
    if hasItem s.transcript msg.item_id then
      { s with transcript := appendFirstContent s.transcript msg.item_id text }
    else addToTranscript now s (some "assistant") text msg.item_id
  else s

/-- The `response.audio_transcript.delta` case of `handleOpenAIMessage`: the
first delta for an item id creates the assistant entry, later deltas append
to its content. -/
def audioTranscriptDeltaCase (now : String) (s : Session) (msg : OpenAIMsg) : Session :=
  if msg.output_index == some 0 && truthy msg.delta && truthy msg.item_id then
    if hasItem s.transcript msg.item_id then
      { s with transcript := appendFirstContent s.transcript msg.item_id (msg.delta.getD "") }
    else addToTranscript now s (some "assistant") (msg.delta.getD "") msg.item_id
  else s

/-- Rendering of a completed function call for the transcript.  The source
round-trips the arguments through `JSON.parse` / `JSON.stringify`; the
normalisation (and the throw on malformed arguments) is abstracted here to
the raw argument string, which no claim depends on. -/
def renderFunctionCall (item : ItemPayload) : String :=
  item.name.getD "undefined" ++ "(" ++ item.arguments.getD "{}" ++ ")"

/-- The `response.output_item.done` case of `handleOpenAIMessage`: a
completed `function_call` item is recorded as a synthetic assistant
transcript entry. -/
def outputItemDoneCase (now : String) (s : Session) (msg : OpenAIMsg) : Session :=
  match msg.item with
  | some item =>
      if item.type == "function_call" then
        addToTranscript now s (some "assistant") (renderFunctionCall item) item.id
      else s
  | none => s

/-- `handleOpenAIMessage` of `src/sessionManager.ts`. -/
def handleOpenAIMessage (now : String) (s : Session) (msg : OpenAIMsg) :
    Session × List Action :=
  if msg.type == "input_audio_buffer.speech_started" then speechStartedCase now s msg
  else if msg.type == "response.audio.delta" then audioDeltaCase s msg
  else if msg.type == "conversation.item.created" then (itemCreatedCase now s msg, [])
  else if msg.type == "conversation.item.input_audio_transcription.completed" then
    (transcriptionCompletedCase now s msg, [])
  else if msg.type == "response.content_part.added" then (contentPartAddedCase now s msg, [])
  else if msg.type == "response.audio_transcript.delta" then
    (audioTranscriptDeltaCase now s msg, [])
  else if msg.type == "response.output_item.done" then (outputItemDoneCase now s msg, [])
  else (s, [])

/-- `handleTwilioConnection` of `src/sessionManager.ts`: close any prior
Twilio socket, then store the new one (together with the AI configuration)
in the single process-wide session. -/
def handleTwilioConnection (s : Session) (ws : WS) (cfg : String) :
    Session × List Action :=
  ({ s with twilioConn := some ws, aiConfig := some cfg },
   cleanupConnection s.twilioConn)

end SM

namespace CU

/-- The `Session` interface of `callUtils.ts` (`saved_config` and the legacy
Azure fields, which only flow into the opaque model configuration, are
elided). -/
structure Session where
  twilioConn : Option WS
  frontendConn : Option WS
  modelConn : Option WS
  streamSid : Option String
  lastAssistantItem : Option String
  responseStartTimestamp : Option Int
  latestMediaTimestamp : Option Int
  openAIApiKey : Option String
  openAIModel : Option String
  customerName : Option String
  customerLocation : Option String
  customerProduct : Option String
deriving DecidableEq, Repr

/-- `clearSession` of `callUtils.ts` resets the shared object to `{}`. -/
def emptySession : Session :=
  ⟨none, none, none, none, none, none, none, none, none, none, none, none⟩

/-- A tool result handed back to the model leg.  The source carries these as
`JSON.stringify` strings; the serialisation is abstracted into a tagged
value (`errorPayload m` is an `{error: m}` payload, `successPayload` a
`{success: true, ...}` payload, `resultPayload` any other handler result). -/
inductive ToolOutput where
  | errorPayload (message : String)
  | successPayload (message : String) (reason : Option String)
  | resultPayload (payload : String)
deriving DecidableEq, Repr

/-- Frontend notifications (`call.ended` carries an optional reason,
`call.disconnected` the disconnect reason). -/
inductive FrontendOut where
  | callEnded (reason : Option String)
  | callDisconnected (reason : String)
deriving DecidableEq, Repr

/-- Observable side effects of the websocket-server variant.
`notifyProvider ep sid` is one HTTP attempt against endpoint `ep` (the local
`/hangup` endpoint or the `/api/twilio/end-call` control endpoint) asking
the telephony provider to end the call. -/
inductive Action where
  | sendTwilioClose (streamSid : String)
  | sendFrontend (m : FrontendOut)
  | sendModelOutput (callId : Option String) (output : ToolOutput)
  | sendModelResponseCreate
  | sendModelAppend (audio : Option String)
  | closeSocket (id : Nat)
  | notifyProvider (endpoint : String) (callSid : Option String)
  | triggerAnalysis (callSid : String)
  | connectModelSocket
deriving DecidableEq, Repr

/-- `isOpen` of `callUtils.ts`: `!!ws && ws.readyState === WebSocket.OPEN`. -/
def isOpen : Option WS → Bool
  | none => false
  | some w => w.readyState == WS.OPEN

/-- `cleanupConnection` of `callUtils.ts`: closes only a socket that
`isOpen` accepts. -/
def cleanupConnection : Option WS → List Action
  | none => []
  | some w => if w.readyState == WS.OPEN then [Action.closeSocket w.id] else []

/-- `jsonSend` of `callUtils.ts`: emits only when `isOpen` holds. -/
def jsonSendActs (ws : Option WS) (a : Action) : List Action :=
  if isOpen ws then [a] else []

/-- `closeAllConnections` of `callUtils.ts`: courtesy `close` frame to the
Twilio leg (when a handle and a truthy `streamSid` are held), `call.ended`
to the frontend, every held socket closed, session reset to `{}`. -/
def closeAllConnections (s : Session) : Session × List Action :=
  let aTw :=
    match s.twilioConn with
    | some w =>
        (if truthy s.streamSid then
          jsonSendActs s.twilioConn (Action.sendTwilioClose (s.streamSid.getD ""))
         else [])
        ++ [Action.closeSocket w.id]
    | none => []
  let aModel :=
    match s.modelConn with
    | some w => [Action.closeSocket w.id]
    | none => []
  let aFront :=
    match s.frontendConn with
    | some w =>
        jsonSendActs s.frontendConn (Action.sendFrontend (FrontendOut.callEnded none))
        ++ [Action.closeSocket w.id]
    | none => []
  (emptySession, aTw ++ aModel ++ aFront)

/-- `endCall` of `twilioClient.ts`: POST to the public `/api/twilio/end-call`
control endpoint, POST to the local `/hangup` endpoint (both best-effort),
then `closeAllConnections`. -/
def endCall (s : Session) (callSid : String) : Session × List Action :=
  let (s1, a1) := closeAllConnections s
  (s1, Action.notifyProvider "api/twilio/end-call" (some callSid)
        :: Action.notifyProvider "hangup" none :: a1)

/-- The names registered in the `functions` array of `functionHandlers.ts`. -/
def functionNames : List String :=
  ["record_candidate_response", "evaluate_candidate", "disconnect_call",
   "get_weather_from_coords"]

/-- `handleFunctionCall` of the websocket-server session manager.
`Except.error` is a thrown error / rejected promise; `Except.ok` a resolved
result.  `runHandler` stands for the registered handler bodies (external
effects); `argsValid` for whether `JSON.parse(item.arguments)` succeeds.
An unknown name THROWS before either of the caught regions is reached. -/
def handleFunctionCall (runHandler : String → String → Except String ToolOutput)
    (argsValid : Bool) (name arguments : String) : Except String ToolOutput :=
  if !functionNames.contains name then
    Except.error ("No handler found for function: " ++ name)
  else if !argsValid then
    Except.ok (ToolOutput.errorPayload "Invalid JSON arguments for function call.")
  else
    match runHandler name arguments with
    | Except.ok r => Except.ok r
    | Except.error msg =>
        Except.ok (ToolOutput.errorPayload ("Error running function " ++ name ++ ": " ++ msg))

/-- The `disconnect_call` handler of `functionHandlers.ts`.  With a truthy
`streamSid` it makes, in order: one POST to `/hangup`, one POST to
`/api/twilio/end-call`, then `endCall` (which itself POSTs to both endpoints
again and closes everything), then a final `closeAllConnections` (a no-op on
the already-cleared session).  Every HTTP attempt is individually wrapped in
try/catch, so the action trace records attempts regardless of outcome.  No
field of the session records the reason: it is only echoed in the returned
payload. -/
def disconnect_call (s : Session) (reason : String) :
    Session × List Action × ToolOutput :=
  let output := ToolOutput.successPayload "Call disconnection completed" (some reason)
  if truthy s.streamSid then
    let sid := s.streamSid.getD ""
    let pre := [Action.notifyProvider "hangup" none,
                Action.notifyProvider "api/twilio/end-call" (some sid)]
    let (s1, a1) := endCall s sid
    let (s2, a2) := closeAllConnections s1
    (s2, pre ++ a1 ++ a2, output)
  else
    let (s2, a2) := closeAllConnections s
    (s2, a2, output)

/-- The `response.output_item.done` dispatch of the websocket-server
`handleModelMessage` for a completed `function_call` item.  `disconnect_call`
is special-cased inline (it never reaches the registry handler):
frontend notice, courtesy `close` frame to the telephony leg,
`closeAllConnections`, and then a success output that is in fact never sent
because the session was just cleared.  Every other name goes through
`handleFunctionCall`; a resolved result is sent back as a
`function_call_output` plus `response.create`, and a rejection is only
logged.  `parsedReason` is `JSON.parse(item.arguments).reason` when the
parse succeeds and `none` when it throws. -/
def dispatchOutputItemDone (runHandler : String → String → Except String ToolOutput)
    (argsValid : Bool) (parsedReason : Option String) (s : Session)
    (name arguments : String) (callId : Option String) : Session × List Action :=
  if name == "disconnect_call" then
    match parsedReason with
    | some reason =>
        let aF := jsonSendActs s.frontendConn
          (Action.sendFrontend (FrontendOut.callDisconnected reason))
        let aT :=
          if s.twilioConn.isSome && truthy s.streamSid then
            jsonSendActs s.twilioConn (Action.sendTwilioClose (s.streamSid.getD ""))
          else []
        let (s1, aC) := closeAllConnections s
        let aM :=
          match s1.modelConn with
          | some _ =>
              jsonSendActs s1.modelConn (Action.sendModelOutput callId
                (ToolOutput.successPayload "Call disconnection initiated" (some reason)))
              ++ jsonSendActs s1.modelConn Action.sendModelResponseCreate
          | none => []
        (s1, aF ++ aT ++ aC ++ aM)
    | none =>
        let (s1, aC) := closeAllConnections s
        (s1, aC)
  else
    match handleFunctionCall runHandler argsValid name arguments with
    | Except.ok out =>
        let acts :=
          match s.modelConn with
          | some _ =>
              jsonSendActs s.modelConn (Action.sendModelOutput callId out)
              ++ jsonSendActs s.modelConn Action.sendModelResponseCreate
          | none => []
        (s, acts)
    | Except.error _ => (s, [])

/-- `tryConnectModel` of the websocket-server session manager, reduced to
its guards; `fresh` is the handle produced by `new WebSocket(...)`. -/
def tryConnectModel (fresh : WS) (s : Session) : Session × List Action :=
  if !s.twilioConn.isSome || !truthy s.streamSid || !truthy s.openAIApiKey then (s, [])
  else if isOpen s.modelConn then (s, [])
  else ({ s with modelConn := some fresh }, [Action.connectModelSocket])

/-- `handleTwilioMessage` of the websocket-server session manager.  The
`stop` case notifies the frontend, fires the analyze-call trigger for a
truthy `streamSid`, and closes everything; the `close` case POSTs to the
local `/hangup` endpoint, notifies the frontend, and closes everything;
both end in `closeAllConnections`. -/
def handleTwilioMessage (fresh : WS) (s : Session) (msg : SM.TwilioMsg) :
    Session × List Action :=
  if msg.event == "start" then
    let s1 := { s with streamSid := msg.start.map (fun p => p.streamSid),
                       latestMediaTimestamp := some 0,
                       lastAssistantItem := none,
                       responseStartTimestamp := none }
    tryConnectModel fresh s1
  else if msg.event == "media" then
    let s1 := { s with latestMediaTimestamp := msg.media.map (fun m => m.timestamp) }
    if isOpen s1.modelConn then
      -- the payload is forwarded, then the timestamp stored a second time
      ({ s1 with latestMediaTimestamp := msg.media.map (fun m => m.timestamp) },
       [Action.sendModelAppend (msg.media.map (fun m => m.payload))])
    else (s1, [])
  else if msg.event == "mark" then (s, [])
  else if msg.event == "stop" then
    let aF :=
      if s.frontendConn.isSome && isOpen s.frontendConn then
        jsonSendActs s.frontendConn
          (Action.sendFrontend (FrontendOut.callEnded (some "caller_disconnected")))
      else []
    let aA :=
      if truthy s.streamSid then [Action.triggerAnalysis (s.streamSid.getD "")] else []
    let (s1, aC) := closeAllConnections s
    (s1, aF ++ aA ++ aC)
  else if msg.event == "close" then
    let aH := [Action.notifyProvider "hangup" none]
    let aF :=
      if s.frontendConn.isSome && isOpen s.frontendConn then
        jsonSendActs s.frontendConn (Action.sendFrontend (FrontendOut.callEnded none))
      else []
    let (s1, aC) := closeAllConnections s
    (s1, aH ++ aF ++ aC)
  else (s, [])

/-- `handleCallConnection` of the websocket-server session manager:
clean up any prior Twilio socket, then store the new one.  `envModel` is
`process.env.OPENAI_MODEL`. -/
def handleCallConnection (s : Session) (ws : WS) (openAIApiKey : String)
    (envModel : Option String) : Session × List Action :=
  ({ s with twilioConn := some ws,
            openAIApiKey := some openAIApiKey,
            openAIModel := some (if truthy envModel then envModel.getD ""
                                 else "gpt-4o-realtime-preview-2024-12-17") },
   cleanupConnection s.twilioConn)

/-- Is this action a provider-notification attempt? -/
def isNotify : Action → Bool
  | Action.notifyProvider _ _ => true
  | _ => false

/-- Count of provider-notification attempts in an action trace. -/
def notifyCount (acts : List Action) : Nat :=
  acts.countP isNotify

end CU

/-! Derived definitions used to state the claims. -/

/-- An inbound Twilio `media` frame. -/
def mediaFrameMsg (p : String) (t : Int) : SM.TwilioMsg :=
  ⟨"media", none, some ⟨p, t⟩⟩

/-- An inbound Twilio `start` frame. -/
def startFrameMsg (sid csid : String) : SM.TwilioMsg :=
  ⟨"start", some ⟨sid, csid⟩, none⟩

/-- An inbound Twilio `stop` frame. -/
def stopFrameMsg : SM.TwilioMsg := ⟨"stop", none, none⟩

/-- An inbound Twilio `close` frame. -/
def closeFrameMsg : SM.TwilioMsg := ⟨"close", none, none⟩

/-- An OpenAI `response.audio_transcript.delta` event for item `i`. -/
def audioTranscriptDeltaMsg (i d : String) : SM.OpenAIMsg :=
  ⟨"response.audio_transcript.delta", some i, some d, none, none, some 0, none⟩

/-- An OpenAI `response.audio.delta` event for item `i` with payload `d`. -/
def audioDeltaMsg (i : String) (d : Option String) : SM.OpenAIMsg :=
  ⟨"response.audio.delta", some i, d, none, none, none, none⟩

/-- An OpenAI `conversation.item.input_audio_transcription.completed` event. -/
def transcriptionCompletedMsg (i T : String) : SM.OpenAIMsg :=
  ⟨"conversation.item.input_audio_transcription.completed", some i, none, some T,
   none, none, none⟩

/-- An OpenAI `conversation.item.created` event carrying a completed
`message` item. -/
def itemCreatedMsg (role : Option String) (i : String)
    (cparts : List SM.ContentPart) : SM.OpenAIMsg :=
  ⟨"conversation.item.created", none, none, none, none, none,
   some ⟨some i, "message", role, none, none, some cparts⟩⟩

/-- Process a sequence of inbound Twilio frames through
`SM.handleTwilioMessage`, keeping the session state. -/
def processTwilioMsgs (now : String) (params : String → Option SM.CallParams)
    (s : SM.Session) (msgs : List SM.TwilioMsg) : SM.Session :=
  msgs.foldl (fun acc m => (SM.handleTwilioMessage now params acc m).1) s

/-- Process a sequence of OpenAI events through `SM.handleOpenAIMessage`,
keeping the session state. -/
def processModelMsgs (now : String) (s : SM.Session) (msgs : List SM.OpenAIMsg) :
    SM.Session :=
  msgs.foldl (fun acc m => (SM.handleOpenAIMessage now acc m).1) s

/-- Concatenation of a list of deltas in delivery order. -/
def concatAll : List String → String
  | [] => ""
  | d :: ds => d ++ concatAll ds

/-- Number of transcript entries carrying the item id `i`. -/
def countId (ts : List SM.TranscriptItem) (i : String) : Nat :=
  ts.countP (fun t => t.itemId == some i)

/-- The transcript invariant: at most one entry per non-empty item id. -/
def UniqIds (ts : List SM.TranscriptItem) : Prop :=
  ∀ i : String, i ≠ "" → countId ts i ≤ 1

/-- Concrete session used by the truncation witness: an utterance of item
`"itemA"` began at AI-leg timestamp 100 and the caller's clock is at 350. -/
def truncWitnessSession : SM.Session :=
  { SM.emptySession with
    lastAssistantItem := some "itemA",
    responseStartTimestamp := some 100,
    latestMediaTimestamp := some 350,
    modelConn := some ⟨2, 1⟩,
    twilioConn := some ⟨1, 1⟩,
    streamSid := some "S1" }

/-- Concrete session used by the disconnect-call theorems: both legs held,
stream `"CA9"` in flight. -/
def disconnectWitnessSession : CU.Session :=
  { CU.emptySession with
    streamSid := some "CA9",
    twilioConn := some ⟨4, 1⟩,
    modelConn := some ⟨5, 1⟩ }

/-- Concrete session used by the unknown-tool theorems: open model leg. -/
def dispatchWitnessSession : CU.Session :=
  { CU.emptySession with
    modelConn := some ⟨6, 1⟩,
    twilioConn := some ⟨7, 1⟩,
    streamSid := some "S3" }

/-- Concrete `src/sessionManager.ts` session used by the stop/close
theorems: both legs and a stream held, one transcript entry. -/
def finalizeWitnessSessionSM : SM.Session :=
  { SM.emptySession with
    twilioConn := some ⟨1, 1⟩,
    modelConn := some ⟨2, 1⟩,
    streamSid := some "S7",
    callSid := some "CA7",
    transcript := [⟨some "system", "Call started", "t0", none⟩] }

/-- Concrete websocket-server session used by the stop/close witness. -/
def finalizeWitnessSessionCU : CU.Session :=
  { CU.emptySession with
    twilioConn := some ⟨1, 1⟩,
    modelConn := some ⟨2, 1⟩,
    frontendConn := some ⟨3, 1⟩,
    streamSid := some "S7" }

/-- Concrete session used by the audio-delta witness. -/
def audioDeltaWitnessSession : SM.Session :=
  { SM.emptySession with
    twilioConn := some ⟨1, 1⟩,
    streamSid := some "S8",
    latestMediaTimestamp := some 421 }

/-- Concrete session used by the wholesale-replacement witness: the `"..."`
placeholder entry for user item `"u1"` opened at speech-started. -/
def placeholderWitnessSession : SM.Session :=
  { SM.emptySession with
    transcript := [⟨some "user", "...", "t0", some "u1"⟩] }

/-! Helper lemmas. -/

theorem truthy_some {x : String} (h : x ≠ "") : truthy (some x) = true := by
  simp [truthy, h]

theorem hasItem_append_cons (pre post : List SM.TranscriptItem)
    (e : SM.TranscriptItem) (j : Option String) (he : e.itemId = j) :
    SM.hasItem (pre ++ e :: post) j = true := by
  simp [SM.hasItem, List.any_append, List.any_cons, he]

theorem hasItem_cons_false {x : SM.TranscriptItem} {rest : List SM.TranscriptItem}
    {j : Option String} (h : SM.hasItem (x :: rest) j = false) :
    (x.itemId == j) = false ∧ SM.hasItem rest j = false := by
  simpa [SM.hasItem, List.any_cons, Bool.or_eq_false_iff] using h

theorem replaceFirst_split (j : Option String) (c : String) :
    ∀ (pre : List SM.TranscriptItem) (e : SM.TranscriptItem)
      (post : List SM.TranscriptItem), e.itemId = j → SM.hasItem pre j = false →
      SM.replaceFirstContent (pre ++ e :: post) j c
        = pre ++ { e with content := c } :: post := by
  intro pre
  induction pre with
  | nil =>
      intro e post he _
      simp [SM.replaceFirstContent, he]
  | cons x rest ih =>
      intro e post he hpre
      obtain ⟨hx, hrest⟩ := hasItem_cons_false hpre
      simp [SM.replaceFirstContent, hx, ih e post he hrest]

theorem appendFirst_split (j : Option String) (d : String) :
    ∀ (pre : List SM.TranscriptItem) (e : SM.TranscriptItem)
      (post : List SM.TranscriptItem), e.itemId = j → SM.hasItem pre j = false →
      SM.appendFirstContent (pre ++ e :: post) j d
        = pre ++ { e with content := e.content ++ d } :: post := by
  intro pre
  induction pre with
  | nil =>
      intro e post he _
      simp [SM.appendFirstContent, he]
  | cons x rest ih =>
      intro e post he hpre
      obtain ⟨hx, hrest⟩ := hasItem_cons_false hpre
      simp [SM.appendFirstContent, hx, ih e post he hrest]

theorem countId_replaceFirst (j : Option String) (c : String) :
    ∀ (ts : List SM.TranscriptItem) (i : String),
      countId (SM.replaceFirstContent ts j c) i = countId ts i := by
  intro ts
  induction ts with
  | nil => intro i; rfl
  | cons x rest ih =>
      intro i
      by_cases hx : (x.itemId == j) = true
      · simp [SM.replaceFirstContent, hx, countId, List.countP_cons]
      · simp only [Bool.not_eq_true] at hx
        simp [SM.replaceFirstContent, hx, countId, List.countP_cons]
        have := ih i
        simp [countId] at this
        omega

theorem countId_appendFirst (j : Option String) (d : String) :
    ∀ (ts : List SM.TranscriptItem) (i : String),
      countId (SM.appendFirstContent ts j d) i = countId ts i := by
  intro ts
  induction ts with
  | nil => intro i; rfl
  | cons x rest ih =>
      intro i
      by_cases hx : (x.itemId == j) = true
      · simp [SM.appendFirstContent, hx, countId, List.countP_cons]
      · simp only [Bool.not_eq_true] at hx
        simp [SM.appendFirstContent, hx, countId, List.countP_cons]
        have := ih i
        simp [countId] at this
        omega

theorem countId_of_hasItem_false :
    ∀ (ts : List SM.TranscriptItem) (i : String),
      SM.hasItem ts (some i) = false → countId ts i = 0 := by
  intro ts
  induction ts with
  | nil => intro i _; rfl
  | cons x rest ih =>
      intro i h
      obtain ⟨hx, hrest⟩ := hasItem_cons_false h
      simp [countId, List.countP_cons, hx]
      have := ih i hrest
      simpa [countId] using this

theorem countId_push (ts : List SM.TranscriptItem) (x : SM.TranscriptItem)
    (i : String) :
    countId (ts ++ [x]) i
      = countId ts i + (if (x.itemId == some i) = true then 1 else 0) := by
  simp [countId, List.countP_append, List.countP_cons]

theorem addToTranscript_uniq (now : String) (s : SM.Session) (role : Option String)
    (content : String) (itemId : Option String) (h : UniqIds s.transcript) :
    UniqIds (SM.addToTranscript now s role content itemId).transcript := by
  unfold SM.addToTranscript
  by_cases hc : (truthy itemId && SM.hasItem s.transcript itemId) = true
  · rw [if_pos hc]
    intro i hi
    rw [countId_replaceFirst]
    exact h i hi
  · rw [if_neg hc]
    intro i hi
    rw [countId_push]
    by_cases hx : (itemId == some i) = true
    · have hid : itemId = some i := by
        cases itemId with
        | none => simp at hx
        | some v =>
            have hv : v = i := by simpa using hx
            rw [hv]
      subst hid
      have htr : truthy (some i) = true := truthy_some hi
      have hcf : (truthy (some i) && SM.hasItem s.transcript (some i)) = false :=
        Bool.eq_false_iff.mpr hc
      have hnot : SM.hasItem s.transcript (some i) = false := by
        rcases Bool.and_eq_false_iff.mp hcf with h1 | h1
        · rw [htr] at h1; cases h1
        · exact h1
      rw [countId_of_hasItem_false s.transcript i hnot]
      simp [hx]
    · simp only [Bool.not_eq_true] at hx
      simp [hx]
      exact h i hi

theorem updateTranscriptItem_uniq (now : String) (s : SM.Session) (itemId : String)
    (role : Option String) (content : String) (h : UniqIds s.transcript) :
    UniqIds (SM.updateTranscriptItem now s itemId role content).transcript := by
  unfold SM.updateTranscriptItem
  by_cases hc : SM.hasItem s.transcript (some itemId) = true
  · rw [if_pos hc]
    intro i hi
    rw [countId_replaceFirst]
    exact h i hi
  · rw [if_neg hc]
    exact addToTranscript_uniq now s role content (some itemId) h

theorem handleTruncation_fst_transcript (s : SM.Session) :
    (SM.handleTruncation s).1.transcript = s.transcript := by
  unfold SM.handleTruncation
  split <;> rfl

theorem audioDeltaCase_fst_transcript (s : SM.Session) (msg : SM.OpenAIMsg) :
    (SM.audioDeltaCase s msg).1.transcript = s.transcript := by
  unfold SM.audioDeltaCase
  split
  · split <;> split <;> rfl
  · rfl

theorem speechStartedCase_uniq (now : String) (s : SM.Session) (msg : SM.OpenAIMsg)
    (h : UniqIds s.transcript) :
    UniqIds (SM.speechStartedCase now s msg).1.transcript := by
  unfold SM.speechStartedCase
  have h1 : UniqIds (SM.handleTruncation s).1.transcript := by
    rw [handleTruncation_fst_transcript]; exact h
  by_cases ht : truthy msg.item_id = true
  · simp only [ht, if_true]
    exact addToTranscript_uniq now _ _ _ _ h1
  · simp only [Bool.eq_false_iff.mpr ht, if_false]
    exact h1

theorem itemCreatedCase_uniq (now : String) (s : SM.Session) (msg : SM.OpenAIMsg)
    (h : UniqIds s.transcript) :
    UniqIds (SM.itemCreatedCase now s msg).transcript := by
  unfold SM.itemCreatedCase
  cases msg.item with
  | none => exact h
  | some item =>
      dsimp only
      split_ifs with h1 h2
      · exact addToTranscript_uniq now _ _ _ _ h
      · exact h
      · exact h

theorem transcriptionCompletedCase_uniq (now : String) (s : SM.Session)
    (msg : SM.OpenAIMsg) (h : UniqIds s.transcript) :
    UniqIds (SM.transcriptionCompletedCase now s msg).transcript := by
  unfold SM.transcriptionCompletedCase
  by_cases h1 : (truthy msg.item_id && truthy msg.transcript) = true
  · rw [if_pos h1]
    exact updateTranscriptItem_uniq now _ _ _ _ h
  · rw [if_neg h1]
    exact h

theorem contentPartAddedCase_uniq (now : String) (s : SM.Session)
    (msg : SM.OpenAIMsg) (h : UniqIds s.transcript) :
    UniqIds (SM.contentPartAddedCase now s msg).transcript := by
  unfold SM.contentPartAddedCase
  dsimp only
  split_ifs with h1 h2
  · intro i hi
    dsimp only
    rw [countId_appendFirst]
    exact h i hi
  · exact addToTranscript_uniq now _ _ _ _ h
  · exact h

theorem audioTranscriptDeltaCase_uniq (now : String) (s : SM.Session)
    (msg : SM.OpenAIMsg) (h : UniqIds s.transcript) :
    UniqIds (SM.audioTranscriptDeltaCase now s msg).transcript := by
  unfold SM.audioTranscriptDeltaCase
  split
  · split
    · intro i hi
      rw [countId_appendFirst]
      exact h i hi
    · exact addToTranscript_uniq now _ _ _ _ h
  · exact h

theorem outputItemDoneCase_uniq (now : String) (s : SM.Session)
    (msg : SM.OpenAIMsg) (h : UniqIds s.transcript) :
    UniqIds (SM.outputItemDoneCase now s msg).transcript := by
  unfold SM.outputItemDoneCase
  cases msg.item with
  | none => exact h
  | some item =>
      dsimp only
      split_ifs with h1
      · exact addToTranscript_uniq now _ _ _ _ h
      · exact h

theorem handleOpenAIMessage_uniq (now : String) (s : SM.Session)
    (msg : SM.OpenAIMsg) (h : UniqIds s.transcript) :
    UniqIds (SM.handleOpenAIMessage now s msg).1.transcript := by
  unfold SM.handleOpenAIMessage
  split
  · exact speechStartedCase_uniq now s msg h
  · split
    · rw [audioDeltaCase_fst_transcript]; exact h
    · split
      · exact itemCreatedCase_uniq now s msg h
      · split
        · exact transcriptionCompletedCase_uniq now s msg h
        · split
          · exact contentPartAddedCase_uniq now s msg h
          · split
            · exact audioTranscriptDeltaCase_uniq now s msg h
            · split
              · exact outputItemDoneCase_uniq now s msg h
              · exact h

theorem applyCallParams_transcript (params : String → Option SM.CallParams)
    (s2 : SM.Session) :
    (SM.applyCallParams params s2).transcript = s2.transcript := by
  unfold SM.applyCallParams
  split_ifs with h1
  · cases params (s2.callSid.getD "") with
    | none => rfl
    | some p =>
        dsimp only
        split_ifs <;> rfl
  · rfl

theorem twilioStartCase_uniq (now : String) (params : String → Option SM.CallParams)
    (s : SM.Session) (msg : SM.TwilioMsg) (h : UniqIds s.transcript) :
    UniqIds (SM.twilioStartCase now params s msg).1.transcript := by
  unfold SM.twilioStartCase
  dsimp only
  rw [applyCallParams_transcript]
  exact addToTranscript_uniq now _ _ _ _ h

theorem twilioMediaCase_fst_transcript (s : SM.Session) (msg : SM.TwilioMsg) :
    (SM.twilioMediaCase s msg).1.transcript = s.transcript := by
  unfold SM.twilioMediaCase
  dsimp only
  split <;> rfl

theorem twilioCloseCase_uniq (now : String) (s : SM.Session)
    (h : UniqIds s.transcript) :
    UniqIds (SM.twilioCloseCase now s).1.transcript := by
  unfold SM.twilioCloseCase SM.closeAllConnections
  dsimp only
  exact addToTranscript_uniq now _ _ _ _ h

theorem handleTwilioMessage_uniq (now : String)
    (params : String → Option SM.CallParams) (s : SM.Session) (msg : SM.TwilioMsg)
    (h : UniqIds s.transcript) :
    UniqIds (SM.handleTwilioMessage now params s msg).1.transcript := by
  unfold SM.handleTwilioMessage
  split
  · exact twilioStartCase_uniq now params s msg h
  · split
    · rw [twilioMediaCase_fst_transcript]; exact h
    · split
      · exact twilioCloseCase_uniq now s h
      · exact h

theorem delta_creates (now i d : String) (hi : i ≠ "") (hd : d ≠ "") (s : SM.Session)
    (h0 : SM.hasItem s.transcript (some i) = false) :
    (SM.handleOpenAIMessage now s (audioTranscriptDeltaMsg i d)).1
      = { s with transcript := s.transcript ++ [⟨some "assistant", d, now, some i⟩] } := by
  have hdi : truthy (some d) = true := truthy_some hd
  have hii : truthy (some i) = true := truthy_some hi
  simp [SM.handleOpenAIMessage, SM.audioTranscriptDeltaCase, audioTranscriptDeltaMsg,
        SM.addToTranscript, hdi, hii, h0]

theorem delta_appends (now i d : String) (hi : i ≠ "") (hd : d ≠ "") (s : SM.Session)
    (h1 : SM.hasItem s.transcript (some i) = true) :
    (SM.handleOpenAIMessage now s (audioTranscriptDeltaMsg i d)).1
      = { s with transcript := SM.appendFirstContent s.transcript (some i) d } := by
  have hdi : truthy (some d) = true := truthy_some hd
  have hii : truthy (some i) = true := truthy_some hi
  simp [SM.handleOpenAIMessage, SM.audioTranscriptDeltaCase, audioTranscriptDeltaMsg,
        hdi, hii, h1]

theorem delta_fold_phase (now i : String) (hi : i ≠ "") :
    ∀ (ds : List String) (s : SM.Session) (pre post : List SM.TranscriptItem)
      (e : SM.TranscriptItem), (∀ d ∈ ds, d ≠ "") →
      s.transcript = pre ++ e :: post → e.itemId = some i →
      SM.hasItem pre (some i) = false →
      (processModelMsgs now s (ds.map (audioTranscriptDeltaMsg i))).transcript
        = pre ++ { e with content := e.content ++ concatAll ds } :: post := by
  intro ds
  induction ds with
  | nil =>
      intro s pre post e _ hsplit _ _
      have he2 : ({ e with content := e.content ++ concatAll [] } : SM.TranscriptItem) = e := by
        cases e with
        | mk r c t j => simp [concatAll]
      rw [List.map_nil]
      show s.transcript = pre ++ { e with content := e.content ++ concatAll [] } :: post
      rw [he2, hsplit]
  | cons d ds ih =>
      intro s pre post e hds hsplit he hpre
      have hd : d ≠ "" := hds d (by simp)
      have hhas : SM.hasItem s.transcript (some i) = true := by
        rw [hsplit]; exact hasItem_append_cons pre post e (some i) he
      have hstep := delta_appends now i d hi hd s hhas
      simp only [List.map_cons, processModelMsgs, List.foldl_cons]
      rw [hstep]
      have happ : SM.appendFirstContent s.transcript (some i) d
          = pre ++ { e with content := e.content ++ d } :: post := by
        rw [hsplit]; exact appendFirst_split (some i) d pre e post he hpre
      have := ih { s with transcript := SM.appendFirstContent s.transcript (some i) d }
        pre post { e with content := e.content ++ d }
        (fun x hx => hds x (by simp [hx])) (by simpa using happ) (by simpa using he) hpre
      simp only [processModelMsgs] at this
      rw [this]
      simp [concatAll, String.append_assoc]

theorem delta_fold_main (now i : String) (hi : i ≠ "") (ds : List String)
    (hne : ds ≠ []) (hds : ∀ d ∈ ds, d ≠ "") (s0 : SM.Session)
    (h0 : SM.hasItem s0.transcript (some i) = false) :
    (processModelMsgs now s0 (ds.map (audioTranscriptDeltaMsg i))).transcript
      = s0.transcript ++ [⟨some "assistant", concatAll ds, now, some i⟩] := by
  cases ds with
  | nil => cases hne rfl
  | cons d ds =>
      have hd : d ≠ "" := hds d (by simp)
      have hstep := delta_creates now i d hi hd s0 h0
      simp only [List.map_cons, processModelMsgs, List.foldl_cons]
      rw [hstep]
      have hphase := delta_fold_phase now i hi ds
        { s0 with transcript := s0.transcript ++ [⟨some "assistant", d, now, some i⟩] }
        s0.transcript [] ⟨some "assistant", d, now, some i⟩
        (fun x hx => hds x (by simp [hx])) (by simp) rfl h0
      simp only [processModelMsgs] at hphase
      rw [hphase]
      simp [concatAll]

/-- Claim C6: transcript folding keeps at most one entry per non-empty item
id.  For a sequence of `response.audio_transcript.delta` events sharing a
non-empty item id (all with non-empty deltas, `output_index` 0) processed
from a state with no entry for that id, exactly one entry is produced, whose
content is the concatenation of the deltas in delivery order; moreover every
OpenAI-side and Twilio-side operation preserves the at-most-one-entry
invariant `UniqIds`. -/
theorem transcript_delta_folding (now i : String) (hi : i ≠ "") (ds : List String)
    (hne : ds ≠ []) (hds : ∀ d ∈ ds, d ≠ "") (s0 : SM.Session)
    (h0 : SM.hasItem s0.transcript (some i) = false) :
    (processModelMsgs now s0 (ds.map (audioTranscriptDeltaMsg i))).transcript
      = s0.transcript ++ [⟨some "assistant", concatAll ds, now, some i⟩]
    ∧ (∀ (s : SM.Session) (msg : SM.OpenAIMsg), UniqIds s.transcript →
         UniqIds (SM.handleOpenAIMessage now s msg).1.transcript)
    ∧ (∀ (params : String → Option SM.CallParams) (s : SM.Session)
         (msg : SM.TwilioMsg), UniqIds s.transcript →
         UniqIds (SM.handleTwilioMessage now params s msg).1.transcript) :=
  ⟨delta_fold_main now i hi ds hne hds s0 h0,
   fun s msg h => handleOpenAIMessage_uniq now s msg h,
   fun params s msg h => handleTwilioMessage_uniq now params s msg h⟩

/-- Witness for C6: deltas `"he"` then `"llo"` for item `"it1"` yield a
single entry with content `"hello"`. -/
theorem transcript_delta_folding_witness :
    (processModelMsgs "t0" SM.emptySession
        (["he", "llo"].map (audioTranscriptDeltaMsg "it1"))).transcript
      = [⟨some "assistant", "hello", "t0", some "it1"⟩] := by
  have h := transcript_delta_folding "t0" "it1" (by decide) ["he", "llo"] (by decide)
    (by decide) SM.emptySession (by decide)
  rw [h.1]
  decide

/-- Claim C10: an event carrying a complete content string for an item id
that already has a transcript entry — `input_audio_transcription.completed`
or a created `message` item — replaces that entry's content wholesale
(last write wins) and creates no duplicate entry; in particular the `"..."`
placeholder of a user turn is overwritten by the final transcription. -/
theorem complete_content_replaces (now i T : String) (s : SM.Session)
    (pre post : List SM.TranscriptItem) (e : SM.TranscriptItem) (role2 : Option String)
    (cparts : List SM.ContentPart)
    (hsplit : s.transcript = pre ++ e :: post) (he : e.itemId = some i)
    (hpre : SM.hasItem pre (some i) = false) (hi : i ≠ "") (hT : T ≠ "")
    (hjoin : String.join (cparts.map (fun c => c.text)) = T) :
    (SM.handleOpenAIMessage now s (transcriptionCompletedMsg i T)).1.transcript
        = pre ++ { e with content := T } :: post
    ∧ (SM.handleOpenAIMessage now s (itemCreatedMsg role2 i cparts)).1.transcript
        = pre ++ { e with content := T } :: post := by
  have hii := truthy_some hi
  have hTT := truthy_some hT
  have hhas : SM.hasItem s.transcript (some i) = true := by
    rw [hsplit]; exact hasItem_append_cons pre post e (some i) he
  constructor
  · simp [SM.handleOpenAIMessage, SM.transcriptionCompletedCase, transcriptionCompletedMsg,
          SM.updateTranscriptItem, hii, hTT, hhas]
    rw [hsplit]
    exact replaceFirst_split (some i) T pre e post he hpre
  · simp [SM.handleOpenAIMessage, SM.itemCreatedCase, itemCreatedMsg,
          SM.addToTranscript, hjoin, hii, hT, hTT, hhas]
    rw [hsplit]
    exact replaceFirst_split (some i) T pre e post he hpre

/-- Witness for C10: the `"..."` placeholder for user item `"u1"` is
overwritten by the final transcription text, with no duplicate entry. -/
theorem complete_content_replaces_witness :
    (SM.handleOpenAIMessage "t1" placeholderWitnessSession
        (transcriptionCompletedMsg "u1" "I am at the branch")).1.transcript
      = [⟨some "user", "I am at the branch", "t0", some "u1"⟩] := by
  have h := complete_content_replaces "t1" "u1" "I am at the branch"
    placeholderWitnessSession [] [] ⟨some "user", "...", "t0", some "u1"⟩
    (some "user") [⟨"text", "I am at the branch"⟩] rfl rfl (by decide) (by decide)
    (by decide) (by decide)
  simpa using h.1

/-- Claim C1: with an utterance in flight (`lastAssistantItem` a non-empty
item id, `responseStartTimestamp` defined) and both legs plus `streamSid`
held, truncation sends the AI leg a truncate instruction naming that item
with `audio_end_ms = max (latestMediaTimestamp - responseStartTimestamp) 0`,
sends the Twilio leg a `clear`, and blanks both fields; with no utterance in
flight it is a no-op that sends nothing and leaves the session unchanged. -/
theorem truncation_correct (s : SM.Session) (item : String) (t0 : Int) (m w : WS)
    (sid : String) (hItem : s.lastAssistantItem = some item) (hine : item ≠ "")
    (hT0 : s.responseStartTimestamp = some t0) (hm : s.modelConn = some m)
    (hw : s.twilioConn = some w) (hsid : s.streamSid = some sid) (hsidne : sid ≠ "") :
    SM.handleTruncation s =
      ({ s with lastAssistantItem := none, responseStartTimestamp := none },
       [SM.Action.sendModel (SM.ModelOut.truncate item 0
          (max (s.latestMediaTimestamp.getD 0 - t0) 0)),
        SM.Action.sendTwilio (SM.TwilioOut.clear sid)])
    ∧ ∀ s' : SM.Session,
        s'.lastAssistantItem = none ∨ s'.responseStartTimestamp = none →
        SM.handleTruncation s' = (s', []) := by
  constructor
  · have hit := truthy_some hine
    have hst := truthy_some hsidne
    simp [SM.handleTruncation, SM.isOpen, hItem, hT0, hm, hw, hsid, hit, hst]
    rcases lt_or_ge t0 (s.latestMediaTimestamp.getD 0) with hlt | hge
    · rw [if_pos hlt, max_eq_left (by omega)]
    · rw [if_neg (by omega), max_eq_right (by omega)]
  · intro s' h
    rcases h with h | h
    · simp [SM.handleTruncation, h, truthy]
    · simp [SM.handleTruncation, h]

/-- Witness for C1: item `"itemA"` started at 100, interrupted at 350 —
the cutoff is 250 — and truncation on the empty session is a no-op. -/
theorem truncation_correct_witness :
    SM.handleTruncation truncWitnessSession =
      ({ truncWitnessSession with
         lastAssistantItem := none,
         responseStartTimestamp := none },
       [SM.Action.sendModel (SM.ModelOut.truncate "itemA" 0 250),
        SM.Action.sendTwilio (SM.TwilioOut.clear "S1")])
    ∧ SM.handleTruncation SM.emptySession = (SM.emptySession, []) := by
  have h := truncation_correct truncWitnessSession "itemA" 100 ⟨2, 1⟩ ⟨1, 1⟩ "S1"
    rfl (by decide) rfl rfl rfl rfl (by decide)
  refine ⟨?_, h.2 SM.emptySession (Or.inl rfl)⟩
  rw [h.1]
  decide

/-- Claim C4: a new Twilio connection always closes the prior telephony
socket (when one is held) before the new socket is stored, so afterwards the
session holds exactly the new telephony handle. -/
theorem single_telephony_leg (s : SM.Session) (ws : WS) (cfg : String) :
    (SM.handleTwilioConnection s ws cfg).1.twilioConn = some ws
    ∧ (SM.handleTwilioConnection s ws cfg).2 =
        (match s.twilioConn with
         | some w => [SM.Action.closeSocket w.id]
         | none => []) :=
  ⟨rfl, rfl⟩

theorem mediaStep_fst (now : String) (params : String → Option SM.CallParams)
    (s : SM.Session) (p : String) (t : Int) :
    (SM.handleTwilioMessage now params s (mediaFrameMsg p t)).1
      = { s with latestMediaTimestamp := some t } := by
  have hdisp : SM.handleTwilioMessage now params s (mediaFrameMsg p t)
      = SM.twilioMediaCase s (mediaFrameMsg p t) := by
    simp [SM.handleTwilioMessage, mediaFrameMsg]
  rw [hdisp]
  unfold SM.twilioMediaCase
  dsimp only
  split <;> rfl

theorem media_fold_aux (now : String) (params : String → Option SM.CallParams) :
    ∀ (frames : List (String × Int)) (s : SM.Session) (p : String) (t : Int),
      frames.getLast? = some (p, t) →
      (processTwilioMsgs now params s
          (frames.map (fun f => mediaFrameMsg f.1 f.2))).latestMediaTimestamp
        = some t := by
  intro frames
  induction frames with
  | nil => intro s p t h; cases h
  | cons f rest ih =>
      intro s p t h
      cases rest with
      | nil =>
          have hf : f = (p, t) := by simpa using h
          subst hf
          simp only [List.map_cons, List.map_nil, processTwilioMsgs, List.foldl_cons,
            List.foldl_nil]
          rw [mediaStep_fst]
      | cons g rest2 =>
          have hlast : (g :: rest2).getLast? = some (p, t) := by
            simpa [List.getLast?_cons_cons] using h
          simp only [List.map_cons, processTwilioMsgs, List.foldl_cons]
          have := ih ((SM.handleTwilioMessage now params s (mediaFrameMsg f.1 f.2)).1) p t hlast
          simpa [processTwilioMsgs] using this

/-- Claim C5: after a `start` event, processing any non-empty sequence of
inbound media frames with non-decreasing timestamps leaves
`latestMediaTimestamp` equal to the timestamp of the last frame processed. -/
theorem latest_media_timestamp_last_frame (now : String)
    (params : String → Option SM.CallParams) (s0 : SM.Session)
    (startMsg : SM.TwilioMsg) (_hstart : startMsg.event = "start")
    (frames : List (String × Int)) (p : String) (t : Int)
    (hlast : frames.getLast? = some (p, t))
    (_hmono : List.Chain' (fun a b => a.2 ≤ b.2) frames) :
    (processTwilioMsgs now params (SM.handleTwilioMessage now params s0 startMsg).1
        (frames.map (fun f => mediaFrameMsg f.1 f.2))).latestMediaTimestamp
      = some t :=
  media_fold_aux now params frames _ p t hlast

/-- Witness for C5: after `start{S1, C1}`, frames at 100 then 250 leave
`latestMediaTimestamp = 250`. -/
theorem latest_media_timestamp_last_frame_witness :
    (processTwilioMsgs "t0" (fun _ => none)
        (SM.handleTwilioMessage "t0" (fun _ => none) SM.emptySession
          (startFrameMsg "S1" "C1")).1
        ([("p1", (100 : Int)), ("p2", 250)].map (fun f => mediaFrameMsg f.1 f.2))
      ).latestMediaTimestamp = some 250 :=
  latest_media_timestamp_last_frame "t0" (fun _ => none) SM.emptySession
    (startFrameMsg "S1" "C1") rfl [("p1", 100), ("p2", 250)] "p2" 250 (by decide)
    (by simp)

/-- Claim C8: an AI audio delta received with the telephony leg and a
non-empty `streamSid` held, when it is the first delta of the current
utterance, records `responseStartTimestamp := latestMediaTimestamp` (0 when
absent), records the event's `item_id` as the last utterance item, and
forwards the payload as a media frame immediately followed by a mark. -/
theorem audio_delta_forwarding (now : String) (s : SM.Session) (w : WS)
    (sid i : String) (d : Option String) (hw : s.twilioConn = some w)
    (hsid : s.streamSid = some sid) (hsidne : sid ≠ "")
    (hfirst : s.responseStartTimestamp = none) (hine : i ≠ "") :
    SM.handleOpenAIMessage now s (audioDeltaMsg i d) =
      ({ s with responseStartTimestamp := some (s.latestMediaTimestamp.getD 0),
                lastAssistantItem := some i },
       [SM.Action.sendTwilio (SM.TwilioOut.media sid d),
        SM.Action.sendTwilio (SM.TwilioOut.mark sid)]) := by
  have hii := truthy_some hine
  have hst := truthy_some hsidne
  simp [SM.handleOpenAIMessage, SM.audioDeltaCase, audioDeltaMsg, hw, hsid, hst,
        hii, hfirst]

/-- Witness for C8: first delta of item `"itB"` at caller clock 421. -/
theorem audio_delta_forwarding_witness :
    SM.handleOpenAIMessage "t2" audioDeltaWitnessSession (audioDeltaMsg "itB" (some "pp")) =
      ({ audioDeltaWitnessSession with
         responseStartTimestamp := some 421,
         lastAssistantItem := some "itB" },
       [SM.Action.sendTwilio (SM.TwilioOut.media "S8" (some "pp")),
        SM.Action.sendTwilio (SM.TwilioOut.mark "S8")]) := by
  have h := audio_delta_forwarding "t2" audioDeltaWitnessSession ⟨1, 1⟩ "S8" "itB"
    (some "pp") rfl rfl (by decide) rfl (by decide)
  rw [h]
  decide

/-- Claim C9: `isOpen` of `src/sessionManager.ts` accepts every defined
handle regardless of `readyState`, so its guards (media forwarding, the
model-connect skip, truncation) only test presence, while `isOpen` of
`callUtils.ts` additionally requires `readyState = OPEN`. -/
theorem isOpen_divergence :
    (∀ w : WS, SM.isOpen (some w) = true)
    ∧ SM.isOpen none = false
    ∧ (∀ w : WS, CU.isOpen (some w) = (w.readyState == WS.OPEN))
    ∧ (SM.isOpen (some ⟨7, 3⟩) = true ∧ CU.isOpen (some ⟨7, 3⟩) = false)
    ∧ (∀ (now : String) (params : String → Option SM.CallParams) (s : SM.Session)
         (w : WS) (p : String) (t : Int),
         (SM.handleTwilioMessage now params { s with modelConn := some w }
             (mediaFrameMsg p t)).2
           = [SM.Action.sendModel (SM.ModelOut.inputAudioAppend (some p))])
    ∧ (∀ w : WS,
         (SM.handleTruncation
             { SM.emptySession with
               modelConn := some w,
               lastAssistantItem := some "X",
               responseStartTimestamp := some 5,
               latestMediaTimestamp := some 9 }).2
           = [SM.Action.sendModel (SM.ModelOut.truncate "X" 0 4)])
    ∧ (∀ w : WS,
         SM.connectToOpenAI
             { SM.emptySession with
               twilioConn := some ⟨0, 0⟩,
               streamSid := some "S",
               aiConfig := some "cfg",
               modelConn := some w } = []) := by
  refine ⟨fun w => rfl, rfl, fun w => rfl, ⟨rfl, rfl⟩, ?_, ?_, ?_⟩
  · intro now params s w p t
    have hdisp : SM.handleTwilioMessage now params { s with modelConn := some w }
          (mediaFrameMsg p t)
        = SM.twilioMediaCase { s with modelConn := some w } (mediaFrameMsg p t) := by
      simp [SM.handleTwilioMessage, mediaFrameMsg]
    rw [hdisp]
    rfl
  · intro w
    rfl
  · intro w
    rfl

theorem closeAll_session (s : CU.Session) :
    (CU.closeAllConnections s).1 = CU.emptySession := rfl

theorem closeAll_notifyCount (s : CU.Session) :
    CU.notifyCount (CU.closeAllConnections s).2 = 0 := by
  unfold CU.closeAllConnections CU.notifyCount CU.jsonSendActs
  dsimp only
  cases s.twilioConn <;> cases s.modelConn <;> cases s.frontendConn <;>
    split_ifs <;>
    simp [List.countP_append, List.countP_cons, CU.isNotify]

theorem closeAll_twilio_closed (s : CU.Session) (w : WS)
    (h : s.twilioConn = some w) :
    CU.Action.closeSocket w.id ∈ (CU.closeAllConnections s).2 := by
  unfold CU.closeAllConnections
  dsimp only
  rw [h]
  simp [List.mem_append]

theorem closeAll_model_closed (s : CU.Session) (w : WS)
    (h : s.modelConn = some w) :
    CU.Action.closeSocket w.id ∈ (CU.closeAllConnections s).2 := by
  unfold CU.closeAllConnections
  dsimp only
  rw [h]
  simp [List.mem_append]

theorem closeAll_close_frame (s : CU.Session) (w : WS) (sid : String)
    (h : s.twilioConn = some w) (hrs : w.readyState = WS.OPEN)
    (hsid : s.streamSid = some sid) (hne : sid ≠ "") :
    CU.Action.sendTwilioClose sid ∈ (CU.closeAllConnections s).2 := by
  unfold CU.closeAllConnections CU.jsonSendActs
  dsimp only
  rw [h, hsid]
  have hop : CU.isOpen (some w) = true := by simp [CU.isOpen, hrs]
  simp [CU.isOpen, hrs, truthy_some hne, List.mem_append]

/-- Claim C2 counterexample: dispatching the termination tool on a session
holding both legs and streamSid `"CA9"` makes FOUR provider-notification
attempts (the handler's two POSTs plus two more inside `endCall`), not
exactly one; the reason appears only in the returned payload, never on any
Session field. -/
theorem disconnect_call_not_exactly_one_attempt :
    CU.notifyCount (CU.disconnect_call disconnectWitnessSession "Wrong number").2.1 = 4
    ∧ CU.notifyCount (CU.disconnect_call disconnectWitnessSession "Wrong number").2.1 ≠ 1 := by
  decide

/-- Claim C2 (amended): dispatch of `disconnect_call` with reason `R` always
closes every held leg socket and resets the session to empty; with a truthy
`streamSid` it makes four best-effort provider-notification attempts (zero
when absent); `R` is only echoed in the returned tool payload — no Session
field records it. -/
theorem disconnect_call_teardown (s : CU.Session) (reason sid : String)
    (hsid : s.streamSid = some sid) (hne : sid ≠ "") :
    (CU.disconnect_call s reason).1 = CU.emptySession
    ∧ CU.notifyCount (CU.disconnect_call s reason).2.1 = 4
    ∧ (∀ w : WS, s.twilioConn = some w →
        CU.Action.closeSocket w.id ∈ (CU.disconnect_call s reason).2.1)
    ∧ (∀ w : WS, s.modelConn = some w →
        CU.Action.closeSocket w.id ∈ (CU.disconnect_call s reason).2.1)
    ∧ (CU.disconnect_call s reason).2.2
        = CU.ToolOutput.successPayload "Call disconnection completed" (some reason)
    ∧ (∀ s' : CU.Session, s'.streamSid = none →
        (CU.disconnect_call s' reason).1 = CU.emptySession
        ∧ CU.notifyCount (CU.disconnect_call s' reason).2.1 = 0) := by
  have hst : truthy s.streamSid = true := by rw [hsid]; exact truthy_some hne
  have hsplit : CU.disconnect_call s reason
      = ((CU.closeAllConnections CU.emptySession).1,
         [CU.Action.notifyProvider "hangup" none,
          CU.Action.notifyProvider "api/twilio/end-call" (some sid)]
         ++ (CU.Action.notifyProvider "api/twilio/end-call" (some sid)
              :: CU.Action.notifyProvider "hangup" none
              :: (CU.closeAllConnections s).2)
         ++ (CU.closeAllConnections CU.emptySession).2,
         CU.ToolOutput.successPayload "Call disconnection completed" (some reason)) := by
    unfold CU.disconnect_call CU.endCall
    rw [if_pos hst, hsid]
    rfl
  refine ⟨?_, ?_, ?_, ?_, ?_, ?_⟩
  · rw [hsplit]
    rfl
  · rw [hsplit]
    have h0 := closeAll_notifyCount s
    unfold CU.notifyCount at h0 ⊢
    simp only [List.countP_append, List.countP_cons, h0]
    rfl
  · intro w hw
    rw [hsplit]
    have hm := closeAll_twilio_closed s w hw
    simp [List.mem_append]
    tauto
  · intro w hw
    rw [hsplit]
    have hm := closeAll_model_closed s w hw
    simp [List.mem_append]
    tauto
  · rw [hsplit]
  · intro s' h
    have hfalse : truthy s'.streamSid = false := by rw [h]; rfl
    constructor
    · unfold CU.disconnect_call
      rw [if_neg (by simp [hfalse])]
      rfl
    · unfold CU.disconnect_call
      rw [if_neg (by simp [hfalse])]
      show CU.notifyCount (CU.closeAllConnections s').2 = 0
      exact closeAll_notifyCount s'

/-- Witness for C2 (amended): the teardown facts at the concrete session. -/
theorem disconnect_call_teardown_witness :
    (CU.disconnect_call disconnectWitnessSession "R").1 = CU.emptySession
    ∧ CU.notifyCount (CU.disconnect_call disconnectWitnessSession "R").2.1 = 4
    ∧ CU.Action.closeSocket 4 ∈ (CU.disconnect_call disconnectWitnessSession "R").2.1
    ∧ CU.Action.closeSocket 5 ∈ (CU.disconnect_call disconnectWitnessSession "R").2.1 := by
  have h := disconnect_call_teardown disconnectWitnessSession "R" "CA9" rfl (by decide)
  exact ⟨h.1, h.2.1, h.2.2.1 ⟨4, 1⟩ rfl, h.2.2.2.1 ⟨5, 1⟩ rfl⟩

/-- Claim C3 counterexample: a tool-call whose name matches no registered
handler does NOT yield an error ToolResult returned to the AI leg —
`handleFunctionCall` throws (`Except.error`), the rejection is only logged,
and the dispatch sends nothing at all (even though the model leg is open).
The session is unchanged, so no leg is closed. -/
theorem unknown_tool_no_output_counterexample :
    CU.handleFunctionCall (fun _ _ => Except.ok (CU.ToolOutput.resultPayload "r")) true
        "fly_to_moon" "args"
      = Except.error "No handler found for function: fly_to_moon"
    ∧ CU.dispatchOutputItemDone (fun _ _ => Except.ok (CU.ToolOutput.resultPayload "r"))
        true none dispatchWitnessSession "fly_to_moon" "args" (some "call_1")
      = (dispatchWitnessSession, []) :=
  ⟨rfl, rfl⟩

/-- Claim C3 (amended): dispatch of an unknown tool name rejects with
`No handler found for function: <name>`; the rejection is caught and only
logged — no `function_call_output` is sent to the AI leg — and the session
is unchanged (no leg closed).  An error ToolResult IS produced (and sent
when the model leg is open) for invalid JSON arguments, but not for an
unknown name. -/
theorem unknown_tool_dispatch (run : String → String → Except String CU.ToolOutput)
    (argsValid : Bool) (parsedReason : Option String) (s : CU.Session)
    (name arguments : String) (callId : Option String)
    (hunk : CU.functionNames.contains name = false) :
    CU.handleFunctionCall run argsValid name arguments
        = Except.error ("No handler found for function: " ++ name)
    ∧ CU.dispatchOutputItemDone run argsValid parsedReason s name arguments callId
        = (s, [])
    ∧ (∀ (goodName : String), CU.functionNames.contains goodName = true →
        CU.handleFunctionCall run false goodName arguments
          = Except.ok (CU.ToolOutput.errorPayload
              "Invalid JSON arguments for function call.")) := by
  have hnd : name ≠ "disconnect_call" := by
    intro h
    subst h
    simp [CU.functionNames] at hunk
  have hbeq : (name == "disconnect_call") = false := by
    simpa using hnd
  have h1 : CU.handleFunctionCall run argsValid name arguments
      = Except.error ("No handler found for function: " ++ name) := by
    unfold CU.handleFunctionCall
    rw [if_pos (show (!CU.functionNames.contains name) = true by rw [hunk]; rfl)]
  refine ⟨h1, ?_, ?_⟩
  · unfold CU.dispatchOutputItemDone
    rw [if_neg (by simp [hbeq]), h1]
  · intro goodName hg
    unfold CU.handleFunctionCall
    rw [if_neg (show ¬(!CU.functionNames.contains goodName) = true by rw [hg]; simp),
        if_pos (show (!false) = true by rfl)]

/-- Witness for C3 (amended): unknown name `"make_coffee"` with an open
model leg — nothing is sent and the session is unchanged. -/
theorem unknown_tool_dispatch_witness :
    CU.handleFunctionCall (fun _ _ => Except.ok (CU.ToolOutput.resultPayload "r")) true
        "make_coffee" "args"
      = Except.error "No handler found for function: make_coffee"
    ∧ CU.dispatchOutputItemDone
        (fun _ _ => Except.ok (CU.ToolOutput.resultPayload "r")) true none
        dispatchWitnessSession "make_coffee" "args" none
      = (dispatchWitnessSession, []) := by
  have h := unknown_tool_dispatch
    (fun _ _ => Except.ok (CU.ToolOutput.resultPayload "r")) true none
    dispatchWitnessSession "make_coffee" "args" none (by decide)
  exact ⟨h.1, h.2.1⟩

theorem addToTranscript_twilioConn (now : String) (s : SM.Session)
    (role : Option String) (content : String) (itemId : Option String) :
    (SM.addToTranscript now s role content itemId).twilioConn = s.twilioConn := by
  unfold SM.addToTranscript
  split <;> rfl

theorem addToTranscript_modelConn (now : String) (s : SM.Session)
    (role : Option String) (content : String) (itemId : Option String) :
    (SM.addToTranscript now s role content itemId).modelConn = s.modelConn := by
  unfold SM.addToTranscript
  split <;> rfl

theorem cu_stop_eq (fresh : WS) (cs : CU.Session) :
    CU.handleTwilioMessage fresh cs stopFrameMsg
      = ((CU.closeAllConnections cs).1,
         (if cs.frontendConn.isSome && CU.isOpen cs.frontendConn then
            CU.jsonSendActs cs.frontendConn
              (CU.Action.sendFrontend (CU.FrontendOut.callEnded (some "caller_disconnected")))
          else [])
         ++ (if truthy cs.streamSid then
              [CU.Action.triggerAnalysis (cs.streamSid.getD "")] else [])
         ++ (CU.closeAllConnections cs).2) := by
  show (if (stopFrameMsg.event == "start") = true then _ else _) = _
  rw [if_neg (by decide), if_neg (by decide), if_neg (by decide), if_pos (by decide)]

theorem cu_close_eq (fresh : WS) (cs : CU.Session) :
    CU.handleTwilioMessage fresh cs closeFrameMsg
      = ((CU.closeAllConnections cs).1,
         [CU.Action.notifyProvider "hangup" none]
         ++ (if cs.frontendConn.isSome && CU.isOpen cs.frontendConn then
              CU.jsonSendActs cs.frontendConn
                (CU.Action.sendFrontend (CU.FrontendOut.callEnded none))
            else [])
         ++ (CU.closeAllConnections cs).2) := by
  show (if (closeFrameMsg.event == "start") = true then _ else _) = _
  rw [if_neg (by decide), if_neg (by decide), if_neg (by decide), if_neg (by decide),
      if_pos (by decide)]

/-- Claim C7 counterexample: in `src/sessionManager.ts` the switch of
`handleTwilioMessage` has no `stop` case, so a `stop` event is ignored:
nothing is saved or emitted, no connection is closed and the session —
still holding both legs — is unchanged, contradicting the claim that stop
triggers the same finalize-and-reset path as close. -/
theorem stop_event_noop_counterexample :
    SM.handleTwilioMessage "t1" (fun _ => none) finalizeWitnessSessionSM stopFrameMsg
        = (finalizeWitnessSessionSM, [])
    ∧ finalizeWitnessSessionSM.twilioConn = some ⟨1, 1⟩
    ∧ finalizeWitnessSessionSM.transcript ≠ [] := by
  refine ⟨rfl, rfl, by decide⟩

/-- Claim C7 (amended): the two variants differ.  In `src/sessionManager.ts`
only `close` finalizes — "Call ended" entry, asynchronous transcript save,
both sockets closed, connection and timing fields cleared (transcript and
callSid retained for the pending save), and no close control frame is
emitted — while `stop` is ignored.  In the websocket-server variant `stop`
and `close` both run `closeAllConnections`: a close control frame goes to
the telephony leg when an OPEN handle and a truthy streamSid are held,
every held socket is closed, and the session resets to empty. -/
theorem finalize_paths (now : String) (params : String → Option SM.CallParams)
    (s : SM.Session) (cs : CU.Session) (fresh : WS) :
    SM.handleTwilioMessage now params s stopFrameMsg = (s, [])
    ∧ SM.handleTwilioMessage now params s closeFrameMsg =
        ({ SM.addToTranscript now s (some "system") "Call ended" none with
           twilioConn := none, modelConn := none, streamSid := none,
           lastAssistantItem := none, responseStartTimestamp := none,
           latestMediaTimestamp := none },
         SM.Action.saveTranscript ::
           (SM.cleanupConnection s.twilioConn ++ SM.cleanupConnection s.modelConn))
    ∧ (CU.handleTwilioMessage fresh cs stopFrameMsg).1 = CU.emptySession
    ∧ (CU.handleTwilioMessage fresh cs closeFrameMsg).1 = CU.emptySession
    ∧ (∀ (w : WS) (sid : String), cs.twilioConn = some w → w.readyState = WS.OPEN →
        cs.streamSid = some sid → sid ≠ "" →
        CU.Action.sendTwilioClose sid ∈ (CU.handleTwilioMessage fresh cs stopFrameMsg).2
        ∧ CU.Action.sendTwilioClose sid ∈ (CU.handleTwilioMessage fresh cs closeFrameMsg).2)
    ∧ (∀ w : WS, cs.twilioConn = some w ∨ cs.modelConn = some w →
        CU.Action.closeSocket w.id ∈ (CU.handleTwilioMessage fresh cs stopFrameMsg).2
        ∧ CU.Action.closeSocket w.id ∈ (CU.handleTwilioMessage fresh cs closeFrameMsg).2) := by
  refine ⟨rfl, ?_, ?_, ?_, ?_, ?_⟩
  · have hb : SM.handleTwilioMessage now params s closeFrameMsg
        = SM.twilioCloseCase now s := by
      simp [SM.handleTwilioMessage, closeFrameMsg]
    rw [hb]
    unfold SM.twilioCloseCase SM.closeAllConnections
    dsimp only
    rw [addToTranscript_twilioConn, addToTranscript_modelConn]
  · rw [cu_stop_eq]
    rfl
  · rw [cu_close_eq]
    rfl
  · intro w sid hw hrs hsid hne
    constructor
    · rw [cu_stop_eq]
      have := closeAll_close_frame cs w sid hw hrs hsid hne
      simp [List.mem_append]
      tauto
    · rw [cu_close_eq]
      have := closeAll_close_frame cs w sid hw hrs hsid hne
      simp [List.mem_append]
      tauto
  · intro w hw
    have hmem : CU.Action.closeSocket w.id ∈ (CU.closeAllConnections cs).2 := by
      rcases hw with hw | hw
      · exact closeAll_twilio_closed cs w hw
      · exact closeAll_model_closed cs w hw
    constructor
    · rw [cu_stop_eq]
      simp [List.mem_append]
      tauto
    · rw [cu_close_eq]
      simp [List.mem_append]
      tauto

/-- Witness for C7 (amended): the finalize facts at concrete sessions of
both variants. -/
theorem finalize_paths_witness :
    SM.handleTwilioMessage "t1" (fun _ => none) finalizeWitnessSessionSM closeFrameMsg =
      ({ SM.addToTranscript "t1" finalizeWitnessSessionSM (some "system") "Call ended" none
         with twilioConn := none, modelConn := none, streamSid := none,
              lastAssistantItem := none, responseStartTimestamp := none,
              latestMediaTimestamp := none },
       [SM.Action.saveTranscript, SM.Action.closeSocket 1, SM.Action.closeSocket 2])
    ∧ (CU.handleTwilioMessage ⟨9, 0⟩ finalizeWitnessSessionCU stopFrameMsg).1
        = CU.emptySession
    ∧ CU.Action.sendTwilioClose "S7"
        ∈ (CU.handleTwilioMessage ⟨9, 0⟩ finalizeWitnessSessionCU stopFrameMsg).2
    ∧ CU.Action.closeSocket 1
        ∈ (CU.handleTwilioMessage ⟨9, 0⟩ finalizeWitnessSessionCU closeFrameMsg).2 := by
  have h := finalize_paths "t1" (fun _ => none) finalizeWitnessSessionSM
    finalizeWitnessSessionCU ⟨9, 0⟩
  refine ⟨by rw [h.2.1]; rfl, h.2.2.1, ?_, ?_⟩
  · exact (h.2.2.2.2.1 ⟨1, 1⟩ "S7" rfl rfl rfl (by decide)).1
  · exact (h.2.2.2.2.2 ⟨1, 1⟩ (Or.inl rfl)).2
